import Mathlib

/-!
Verification development for the `gri` review-dashboard tool.

The repository's entry point `src/gri/__main__.py` is embedded below as
Lean definitions.  The collaborator classes `GerritServer` (gri/gerrit.py)
and `Review` (gri/review.py) are part of the repository but absent from
src/; where a claim depends on their behaviour they are modelled from the
specification, and each such definition says so in its doc comment.
-/

namespace Gri

/-- A raw record returned by a server endpoint's query, with the fields the
specification's data model names: identifier, score (absent score already
normalised to 0), age in whole days, work-in-progress flag and open state. -/
structure Record where
  id : Nat
  score : Int
  ageDays : Nat
  wip : Bool
  isOpen : Bool
  deriving DecidableEq, Repr

/-- A transport/auth failure raised by an endpoint query. -/
structure QueryError where
  msg : String
  deriving DecidableEq, Repr

/-- Modelled from the spec: `GerritServer` (gri/gerrit.py, absent from src/).
§6: one review-server connection with a stable name, whose
`query(queryString)` either returns a sequence of raw records or fails with
a transport/auth error. -/
structure GerritServer where
  url : String
  name : String
  queryResult : String → Except QueryError (List Record)

/-- Modelled from the spec: `Review` (gri/review.py, absent from src/).
§3: a ReviewItem wraps one raw record and is stamped with a non-owning
reference to its origin server, exactly the two arguments `Review(record,
item)` receives in `App.query`. -/
structure Review where
  data : Record
  server : GerritServer

/-- Ordered danger enumeration of §3: {normal, moderate, considerable,
high, very-high}. -/
inductive Danger where
  | normal
  | moderate
  | considerable
  | high
  | veryhigh
  deriving DecidableEq, Repr

/-- Rank of a danger level in the §3 enumeration order. -/
def Danger.toNat : Danger → Nat
  | .normal => 0
  | .moderate => 1
  | .considerable => 2
  | .high => 3
  | .veryhigh => 4

/-- Modelled from the spec: the danger classification of §4.2
(gri/review.py is absent from src/).  A pure function of age-in-days and
score; higher age and more negative score increase danger.  The exact
thresholds are an implementation choice per §4.2; this instance maps a
combined point count to the five levels. -/
def rawDanger (age : Nat) (score : Int) : Danger :=
  let pts : Nat := age / 60 + (if score < 0 then min 2 (-score).toNat else 0)
  if 4 ≤ pts then .veryhigh
  else if pts = 3 then .high
  else if pts = 2 then .considerable
  else if pts = 1 then .moderate
  else .normal

/-- Modelled from the spec: §4.2 WIP dampening — a work-in-progress item is
classified at or below "moderate" regardless of age/score. -/
def dangerLevel (age : Nat) (score : Int) (wip : Bool) : Danger :=
  let raw := rawDanger age score
  if wip then (if 2 ≤ raw.toNat then .moderate else raw) else raw

/-- Age of a review item in whole days (§3 derived attribute). -/
def Review.age (r : Review) : Nat := r.data.ageDays

/-- Danger level of a review item. -/
def Review.danger (r : Review) : Danger :=
  dangerLevel r.data.ageDays r.data.score r.data.wip

/-- Modelled from the spec: the total order on ReviewItems of §4.2
(`Review` comparison hooks, gri/review.py, are absent from src/; `sorted`
in `App.report` consumes them).  Key, most significant first: danger level
descending, age descending, identifier ascending. -/
def reviewLE (a b : Review) : Bool :=
  decide (b.danger.toNat < a.danger.toNat) ||
    (decide (a.danger.toNat = b.danger.toNat) &&
      (decide (b.age < a.age) ||
        (decide (a.age = b.age) && decide (a.data.id ≤ b.data.id))))

/-- The sort `sorted(self.reviews)` performs in `App.report` (line 100),
under the modelled §4.2 order. -/
def sortReviews (l : List Review) : List Review := l.mergeSort reviewLE

/-- Modelled from the spec: §4.2 rendering of a ReviewItem as display
columns (`Review.as_columns`, gri/review.py, absent from src/): a pure
projection of the item into the five columns of the table built in
`App.report`. -/
def Review.as_columns (r : Review) : List String :=
  [toString r.data.id, toString r.data.ageDays,
   "project/subject", (if r.data.wip then "[wip]" else "") ++ toString (Danger.toNat r.danger),
   toString r.data.score]

/-- One `servers` entry of the configuration file (`Config`, lines 37-50):
the `url` and `name` keys `App.__init__` reads. -/
structure ServerConfig where
  url : String
  name : String

/-- The loop body of `App.__init__` (lines 59-67): each configured server
is constructed inside its own try/except; on `SystemError` the failure is
logged and the loop continues, on success the server is appended.  The
constructor itself (`GerritServer.__init__`, absent from src/) is passed in
as `mk`, an arbitrary fallible constructor. -/
def collectServers (mk : ServerConfig → Except String GerritServer) :
    List ServerConfig → List GerritServer
  | [] => []
  | c :: rest =>
    match mk c with
    | .ok s => s :: collectServers mk rest
    | .error _ => collectServers mk rest

/-- The mutable state an `App` instance carries: its server list, the user
string and the `reviews` attribute holding the current merged collection. -/
structure AppState where
  servers : List GerritServer
  user : String
  reviews : List Review

/-- The ways `App.__init__` can fail: an uncaught index error when the
`--server` option selects a non-existent entry (line 62), or the explicit
`sys.exit(1)` when no server could be constructed (lines 68-69). -/
inductive InitError where
  | indexError
  | exitOne

/-- The server selection of `App.__init__` (lines 59-63): all configured
servers when no `--server` option was given, otherwise the single entry at
that index (an out-of-range index raises, uncaught). -/
def selectServers (cfgServers : List ServerConfig) :
    Option Nat → Except InitError (List ServerConfig)
  | none => .ok cfgServers
  | some i =>
    match cfgServers[i]? with
    | some c => .ok [c]
    | none => .error InitError.indexError

/-- `App.__init__` (lines 55-72): selects the configured servers,
constructs each one independently via `collectServers`, and exits with
status 1 when the resulting server list is empty.  The `reviews` attribute
starts as an empty list: no query has run yet at construction time. -/
def App.init (mk : ServerConfig → Except String GerritServer)
    (cfgServers : List ServerConfig) (server : Option Nat) (user : String) :
    Except InitError AppState :=
  match selectServers cfgServers server with
  | .error e => .error e
  | .ok selected =>
    if (collectServers mk selected).isEmpty then .error InitError.exitOne
    else .ok { servers := collectServers mk selected, user := user, reviews := [] }

/-- The loop of `App.query` (lines 74-80): for each server in order, the
server's query is invoked and each returned record is wrapped into a
`Review` stamped with that server.  There is no exception handling in the
loop, so a failing endpoint query propagates out of the whole method; that
is the `.error` case here. -/
def queryLoop (q : String) : List GerritServer → Except QueryError (List Review)
  | [] => .ok []
  | s :: rest =>
    match s.queryResult q with
    | .error e => .error e
    | .ok recs =>
      match queryLoop q rest with
      | .error e => .error e
      | .ok revs => .ok (recs.map (fun r => Review.mk r s) ++ revs)

/-- `App.query` (lines 74-80): resets `self.reviews` and refills it from
every server's results; a raised endpoint error propagates. -/
def App.query (st : AppState) (q : String) : Except QueryError AppState :=
  match queryLoop q st.servers with
  | .error e => .error e
  | .ok revs => .ok { st with reviews := revs }

/-- Python truthiness of the optional query string, as used by
`if query:` (line 88) and `... if query else ""` (line 108): `None` and the
empty string are falsy. -/
def optTruthy : Option String → Bool
  | none => false
  | some s => !(s = "")

/-- The displayed output of `App.report`: the table rows in display order,
the row count and the trailing summary line.  `abandonCalls` records every
review whose `abandon` operation the loop invokes; the abandon block at
lines 102-104 is commented out in the source, so the loop body only adds a
row and increments the count and no call is ever recorded. -/
structure ReportOutput where
  rows : List (List String)
  cnt : Nat
  summary : String
  abandonCalls : List Review

/-- The rendering part of `App.report` (lines 91-109): sorts the collection,
renders each item as a row while counting, then prints the summary line
`-- {cnt} changes listed` with ` from: {query}` appended when a truthy
query string is present.  Lines 102-104 (the abandon action guarded by the
`abandon`/`force` CLI flags) are commented out in the source and therefore
contribute nothing here. -/
def renderReport (reviews : List Review) (query : Option String) : ReportOutput :=
  let sorted := sortReviews reviews
  let extra := if optTruthy query then " from: [cyan]" ++ (query.getD "") ++ "[/]" else ""
  { rows := sorted.map Review.as_columns
    cnt := sorted.length
    summary := "[dim]-- " ++ toString sorted.length ++ " changes listed" ++ extra ++ "[/]"
    abandonCalls := [] }

/-- `App.report` (lines 86-109): when a truthy query is given it first
re-runs `App.query` (replacing the stored collection, and propagating any
endpoint failure), then renders the stored collection. -/
def App.report (st : AppState) (query : Option String) :
    Except QueryError (AppState × ReportOutput) :=
  match (if optTruthy query then App.query st (query.getD "") else .ok st) with
  | .error e => .error e
  | .ok st2 => .ok (st2, renderReport st2.reviews query)

/-- The CLI flags of the `cli` group (lines 135-172) that govern the
abandon action: `--abandon`, `--abandon-age` (default 90) and `--force`. -/
structure CliFlags where
  abandon : Bool
  abandonAge : Nat
  force : Bool

/-- A report run in the context of the CLI flags: `cli` stores the flags in
`ctx.params`, but `App.report` never reads them — the only lines that would
(102-104) are commented out — so the flags do not influence the output, in
particular `abandonCalls`. -/
def runReport (_flags : CliFlags) (st : AppState) (query : Option String) :
    Except QueryError (AppState × ReportOutput) :=
  App.report st query

/-- §4.4 eligibility predicate, from the spec: open, score < 0, age at or
above the threshold, and the originating query context not the "incoming"
view.  (Stated from the spec; the code that would consume it is the
commented-out block at lines 102-104.) -/
def eligible (r : Review) (maxAgeDays : Nat) (query : Option String) : Bool :=
  r.data.isOpen && decide (r.data.score < 0) && decide (maxAgeDays ≤ r.data.ageDays)
    && !(query = some "incoming")

/-- The user rewrite in `cli` (lines 181-182): a user string containing a
space is wrapped in double quotes, any other string is left unchanged. -/
def cliUser (user : String) : String :=
  if user.data.contains ' ' then "\"" ++ user ++ "\"" else user

/-- The query string built by the `owned` subcommand (lines 198-199):
`status:open` followed by the `owner:` clause for the stored user. -/
def ownedQuery (user : String) : String :=
  "status:open" ++ " owner:" ++ user

/-- The query string built by the `incoming` subcommand (line 211):
the `reviewer:` clause for the stored user followed by `status:open`. -/
def incomingQuery (user : String) : String :=
  "reviewer:" ++ user ++ " status:open"

/-- The records an endpoint contributed: its query result when it
succeeded, nothing when it failed. -/
def recordsOf (s : GerritServer) (q : String) : List Record :=
  match s.queryResult q with
  | .ok recs => recs
  | .error _ => []

/-- Sample record: a fresh, positively scored open review. -/
def okRecord : Record := { id := 1, score := 1, ageDays := 5, wip := false, isOpen := true }

/-- Sample record: a stale open review with negative score — eligible for
abandoning under the default 90-day threshold. -/
def staleRecord : Record := { id := 7, score := -2, ageDays := 120, wip := false, isOpen := true }

/-- Sample endpoint whose query always succeeds with one record. -/
def okServer : GerritServer :=
  { url := "https://a.example", name := "A", queryResult := fun _ => .ok [okRecord] }

/-- Sample endpoint whose query always fails with a transport error. -/
def badServer : GerritServer :=
  { url := "https://b.example", name := "B",
    queryResult := fun _ => .error { msg := "server unreachable" } }

/-- Sample endpoint whose query always succeeds with the stale record. -/
def staleServer : GerritServer :=
  { url := "https://c.example", name := "C", queryResult := fun _ => .ok [staleRecord] }

/-- Sample constructor used to exercise `App.init`: fails exactly on
configs whose name is "bad". -/
def mkSample (c : ServerConfig) : Except String GerritServer :=
  if c.name = "bad" then .error "auth failure"
  else .ok { url := c.url, name := c.name, queryResult := fun _ => .ok [] }

/-- The endpoint `mkSample` constructs for the config ("https://u.example",
"good"). -/
def goodServer : GerritServer :=
  { url := "https://u.example", name := "good", queryResult := fun _ => Except.ok [] }

section Lemmas

/-- The §4.2 comparator is transitive. -/
theorem reviewLE_trans (a b c : Review) (hab : reviewLE a b = true)
    (hbc : reviewLE b c = true) : reviewLE a c = true := by
  simp only [reviewLE, Bool.or_eq_true, Bool.and_eq_true, decide_eq_true_eq] at *
  omega

/-- The §4.2 comparator is total. -/
theorem reviewLE_total (a b : Review) : (reviewLE a b || reviewLE b a) = true := by
  simp only [reviewLE, Bool.or_eq_true, Bool.and_eq_true, decide_eq_true_eq]
  omega

/-- When every endpoint in the list succeeds, the query loop returns the
concatenation of the per-endpoint results, each record wrapped with its
own server. -/
theorem queryLoop_eq_of_all_ok (q : String) :
    ∀ servers : List GerritServer, (∀ s ∈ servers, (s.queryResult q).isOk = true) →
      queryLoop q servers =
        Except.ok (servers.flatMap fun s => (recordsOf s q).map fun r => Review.mk r s) := by
  intro servers
  induction servers with
  | nil => intro _; rfl
  | cons s rest ih =>
    intro h
    have hs : (s.queryResult q).isOk = true := h s (List.mem_cons_self s rest)
    have hrest := ih fun t ht => h t (List.mem_cons_of_mem s ht)
    simp only [queryLoop, List.flatMap_cons]
    cases hq : s.queryResult q with
    | error e => rw [hq] at hs; simp [Except.isOk, Except.toBool] at hs
    | ok recs =>
      rw [hrest]
      simp [recordsOf, hq]

/-- If any endpoint in the list fails, the query loop as a whole fails. -/
theorem queryLoop_fails_of_mem_fail (q : String) :
    ∀ servers : List GerritServer,
      (∃ s ∈ servers, (s.queryResult q).isOk = false) →
      (queryLoop q servers).isOk = false := by
  intro servers
  induction servers with
  | nil => rintro ⟨s, hs, _⟩; simp at hs
  | cons s rest ih =>
    rintro ⟨t, ht, hfail⟩
    simp only [queryLoop]
    cases hq : s.queryResult q with
    | error e => rfl
    | ok recs =>
      rcases List.mem_cons.mp ht with rfl | htr
      · rw [hq] at hfail; simp [Except.isOk, Except.toBool] at hfail
      · have := ih ⟨t, htr, hfail⟩
        cases hr : queryLoop q rest with
        | error e => simp [Except.isOk, Except.toBool]
        | ok revs => rw [hr] at this; simp [Except.isOk, Except.toBool] at this

end Lemmas

/-- C1 counterexample: with one succeeding endpoint and one failing
endpoint, the aggregation loop of `App.query` does not produce the
successful endpoint's items — the failure propagates and the whole
aggregation fails, contrary to the claim. -/
theorem partial_failure_counterexample :
    (okServer.queryResult "status:open").isOk = true ∧
    (badServer.queryResult "status:open").isOk = false ∧
    queryLoop "status:open" [okServer, badServer] =
      Except.error { msg := "server unreachable" } :=
  ⟨rfl, rfl, rfl⟩

/-- C1 (amended): `App.query` has no exception handling, so when any
endpoint's query fails the failure propagates and the aggregation as a
whole fails — no merged collection of the successful endpoints' items is
produced. -/
theorem query_propagates_endpoint_failure (st : AppState) (q : String)
    (h : ∃ s ∈ st.servers, (s.queryResult q).isOk = false) :
    (App.query st q).isOk = false := by
  have hfail := queryLoop_fails_of_mem_fail q st.servers h
  simp only [App.query]
  cases hr : queryLoop q st.servers with
  | error e => rfl
  | ok revs => rw [hr] at hfail; simp [Except.isOk, Except.toBool] at hfail

/-- C1 witness: the amended theorem applied to the concrete two-endpoint
state of the counterexample. -/
theorem query_propagates_endpoint_failure_witness :
    (App.query { servers := [okServer, badServer], user := "self", reviews := [] }
      "status:open").isOk = false :=
  query_propagates_endpoint_failure _ _
    ⟨badServer, List.mem_cons_of_mem _ (List.mem_cons_self _ _), rfl⟩

/-- C3: when every endpoint succeeds, `App.query`'s loop returns exactly
the concatenation of the per-endpoint results in endpoint order, each
record wrapped into a `Review` stamped with its own server; the merged
size is the sum of the per-endpoint record counts, and every item's data
comes from its stamped origin server. -/
theorem query_success_merges_all (q : String) (servers : List GerritServer)
    (h : ∀ s ∈ servers, (s.queryResult q).isOk = true) :
    queryLoop q servers =
      Except.ok (servers.flatMap fun s => (recordsOf s q).map fun r => Review.mk r s) ∧
    (servers.flatMap fun s => (recordsOf s q).map fun r => Review.mk r s).length =
      (servers.map fun s => (recordsOf s q).length).sum ∧
    ∀ rv ∈ servers.flatMap fun s => (recordsOf s q).map fun r => Review.mk r s,
      rv.data ∈ recordsOf rv.server q := by
  refine ⟨queryLoop_eq_of_all_ok q servers h, ?_, ?_⟩
  · simp [List.length_flatMap, Function.comp_def, List.length_map]
  · intro rv hrv
    rcases List.mem_flatMap.mp hrv with ⟨s, _, hmem⟩
    rcases List.mem_map.mp hmem with ⟨r, hr, rfl⟩
    simpa using hr

/-- C3 witness: two concrete succeeding endpoints merge into the
concatenation of their single records, each stamped with its server. -/
theorem query_success_merges_all_witness :
    queryLoop "status:open" [okServer, staleServer] =
      Except.ok [Review.mk okRecord okServer, Review.mk staleRecord staleServer] := by
  have hyp : ∀ s ∈ [okServer, staleServer], (s.queryResult "status:open").isOk = true := by
    intro s hs
    rcases List.mem_cons.mp hs with rfl | hs2
    · rfl
    · rcases List.mem_cons.mp hs2 with rfl | h3
      · rfl
      · simp at h3
  exact ((query_success_merges_all "status:open" [okServer, staleServer] hyp).1).trans rfl

/-- C7: the display order of `App.report` is the §4.2 order — the sorted
sequence is a permutation of the collection, consecutive items satisfy the
comparator (danger descending, then age descending, then identifier
ascending), sorting is idempotent (so sorting the same collection twice
yields identical sequences), and the rendered rows follow exactly that
sorted sequence. -/
theorem report_order_total_deterministic (l : List Review) (q : Option String) :
    List.Perm (sortReviews l) l ∧
    List.Pairwise (fun a b => reviewLE a b = true) (sortReviews l) ∧
    sortReviews (sortReviews l) = sortReviews l ∧
    (renderReport l q).rows = (sortReviews l).map Review.as_columns := by
  refine ⟨List.mergeSort_perm l reviewLE, ?_, ?_, rfl⟩
  · exact List.sorted_mergeSort reviewLE_trans reviewLE_total l
  · exact List.mergeSort_of_sorted (List.sorted_mergeSort reviewLE_trans reviewLE_total l)

/-- C2: the abandon action at lines 102-104 of `App.report` is commented
out, so even with `--abandon --force` and an eligible item (open, score
-2, 120 days old, non-incoming query) the report run records no abandon
call, contrary to the claim that every eligible item's abandon operation
is invoked. -/
theorem abandon_flag_never_acts :
    eligible (Review.mk staleRecord staleServer) 90 (some "status:open owner:self") = true ∧
    ((runReport { abandon := true, abandonAge := 90, force := true }
        { servers := [staleServer], user := "self", reviews := [] }
        (some "status:open owner:self")).map fun p => p.2.abandonCalls) =
      Except.ok [] :=
  ⟨rfl, rfl⟩

/-- C4: a report run whose `--force` flag is false records no abandon call
on any item, whatever the flags, state and query are. -/
theorem dry_run_never_abandons (flags : CliFlags) (st : AppState)
    (q : Option String) (st2 : AppState) (out : ReportOutput)
    (_hforce : flags.force = false)
    (h : runReport flags st q = Except.ok (st2, out)) :
    out.abandonCalls = [] := by
  simp only [runReport, App.report] at h
  cases hin : (if optTruthy q then App.query st (q.getD "") else .ok st) with
  | error e => rw [hin] at h; cases h
  | ok st3 =>
    rw [hin] at h
    have h2 : Except.ok (st3, renderReport st3.reviews q) =
        Except.ok (st2, out) := h
    injection h2 with h3
    cases h3
    rfl

/-- C4 witness: the theorem applied to a concrete state holding an
eligible stale review, with force off. -/
theorem dry_run_never_abandons_witness :
    (renderReport [Review.mk staleRecord staleServer] none).abandonCalls = [] :=
  dry_run_never_abandons { abandon := true, abandonAge := 90, force := false }
    { servers := [staleServer], user := "self", reviews := [Review.mk staleRecord staleServer] }
    none
    { servers := [staleServer], user := "self", reviews := [Review.mk staleRecord staleServer] }
    (renderReport [Review.mk staleRecord staleServer] none) rfl rfl

/-- C5: every successfully constructed application instance holds at least
one endpoint and starts with an empty merged collection (no query has run
yet); and when no endpoint at all could be constructed, `App.__init__`
exits fatally with status 1. -/
theorem init_requires_usable_endpoint (mk : ServerConfig → Except String GerritServer)
    (cfgs : List ServerConfig) (server : Option Nat) (user : String) :
    (∀ st, App.init mk cfgs server user = Except.ok st →
      st.servers ≠ [] ∧ st.reviews = []) ∧
    (collectServers mk cfgs = [] →
      App.init mk cfgs none user = Except.error InitError.exitOne) := by
  constructor
  · intro st h
    unfold App.init at h
    split at h
    · cases h
    · rename_i selected _
      split at h
      · cases h
      · rename_i hne
        cases h
        refine ⟨?_, rfl⟩
        simpa [List.isEmpty_iff] using hne
  · intro h0
    simp [App.init, selectServers, h0]

/-- C5 witness: a configuration whose only server fails to construct makes
`App.__init__` exit with status 1, while a usable configuration yields an
instance with one endpoint and an empty collection. -/
theorem init_requires_usable_endpoint_witness :
    App.init mkSample [{ url := "https://x.example", name := "bad" }] none "self" =
      Except.error InitError.exitOne ∧
    (({ servers := [goodServer], user := "self", reviews := [] } : AppState).servers ≠ [] ∧
      ({ servers := [goodServer], user := "self", reviews := [] } : AppState).reviews = []) :=
  ⟨(init_requires_usable_endpoint mkSample
      [{ url := "https://x.example", name := "bad" }] none "self").2 rfl,
    (init_requires_usable_endpoint mkSample
      [{ url := "https://u.example", name := "good" }] none "self").1 _ rfl⟩

/-- C6: a constructor failure for one configured endpoint does not abort
the construction loop — the collected server list over the surrounding
configs is exactly what the configs before and after the failing one
contribute. -/
theorem construct_failure_isolated (mk : ServerConfig → Except String GerritServer)
    (pre post : List ServerConfig) (c : ServerConfig) (e : String)
    (hc : mk c = Except.error e) :
    collectServers mk (pre ++ c :: post) =
      collectServers mk pre ++ collectServers mk post := by
  induction pre with
  | nil => simp [collectServers, hc]
  | cons d rest ih =>
    simp only [List.cons_append, collectServers]
    cases hd : mk d <;> simp [ih]

/-- C6 witness: with the failing config between two good ones, the good
endpoints on both sides are still constructed and retained. -/
theorem construct_failure_isolated_witness :
    collectServers mkSample
        [{ url := "u", name := "good" }, { url := "x", name := "bad" },
          { url := "v", name := "also" }] =
      collectServers mkSample [{ url := "u", name := "good" }] ++
        collectServers mkSample [{ url := "v", name := "also" }] :=
  construct_failure_isolated mkSample [{ url := "u", name := "good" }]
    [{ url := "v", name := "also" }] { url := "x", name := "bad" } "auth failure" rfl

/-- C8: rendering a report never fails — for any collection (the empty one
included) the row count and the trailing summary's count equal the number
of items, and a truthy query string appears verbatim inside the summary
line. -/
theorem report_counts_and_summary (st : AppState) (reviews : List Review) (q : String) :
    (App.report st none).isOk = true ∧
    (renderReport reviews (some q)).cnt = reviews.length ∧
    (renderReport reviews (some q)).rows.length = reviews.length ∧
    (renderReport [] (some q)).cnt = 0 ∧
    (renderReport [] (some q)).rows = [] ∧
    (q ≠ "" → ∃ pre post,
      (renderReport reviews (some q)).summary.data = pre ++ q.data ++ post) := by
  have hlen : (sortReviews reviews).length = reviews.length :=
    (List.mergeSort_perm reviews reviewLE).length_eq
  refine ⟨rfl, ?_, ?_, ?_, ?_, ?_⟩
  · simpa [renderReport] using hlen
  · simpa [renderReport] using hlen
  · simp [renderReport, sortReviews]
  · simp [renderReport, sortReviews]
  · intro hq
    have ht : optTruthy (some q) = true := by simp [optTruthy, hq]
    refine ⟨("[dim]-- " ++ toString (sortReviews reviews).length ++
        " changes listed" ++ " from: [cyan]").data, ("[/]" ++ "[/]").data, ?_⟩
    simp [renderReport, ht, String.data_append, List.append_assoc]

/-- C8 witness: the summary of an empty report over the query
`status:open` contains that query string. -/
theorem report_counts_and_summary_witness :
    ("status:open" : String) ≠ "" ∧
    (∃ pre post, (renderReport [] (some "status:open")).summary.data =
      pre ++ ("status:open" : String).data ++ post) :=
  ⟨by decide,
    (report_counts_and_summary { servers := [], user := "self", reviews := [] }
      [] "status:open").2.2.2.2.2 (by decide)⟩

/-- C9: reporting an existing merged collection leaves the stored
collection untouched — the state `App.report` returns is exactly the input
state, items and stored order included; the sort happens only on the
displayed copy. -/
theorem report_does_not_mutate (st : AppState) :
    App.report st none = Except.ok (st, renderReport st.reviews none) := rfl

/-- C10: a user string containing a space is wrapped in double quotes by
`cli` before the `owner:`/`reviewer:` clauses embed it, and a string
without a space is embedded unchanged. -/
theorem cli_user_quoting (u v : String)
    (hu : u.data.contains ' ' = true) (hv : v.data.contains ' ' = false) :
    ownedQuery (cliUser u) = "status:open" ++ " owner:" ++ ("\"" ++ u ++ "\"") ∧
    incomingQuery (cliUser u) = "reviewer:" ++ ("\"" ++ u ++ "\"") ++ " status:open" ∧
    ownedQuery (cliUser v) = "status:open" ++ " owner:" ++ v ∧
    incomingQuery (cliUser v) = "reviewer:" ++ v ++ " status:open" := by
  have hu2 : ' ' ∈ u.data := by simpa using hu
  have hv2 : ' ' ∉ v.data := by simpa using hv
  simp [cliUser, ownedQuery, incomingQuery, hu2, hv2]

/-- C10 witness: the theorem applied to `john doe` (has a space) and
`self` (has none). -/
theorem cli_user_quoting_witness :
    ("john doe" : String).data.contains ' ' = true ∧
    ("self" : String).data.contains ' ' = false ∧
    ownedQuery (cliUser "john doe") =
      "status:open" ++ " owner:" ++ ("\"" ++ "john doe" ++ "\"") :=
  ⟨by decide, by decide,
    (cli_user_quoting "john doe" "self" (by decide) (by decide)).1⟩

end Gri
